import Mathlib

/-!
Verification of the admin sign-in orchestration in
`src/components/admin/AdminLogin.tsx`.

The component's `onSubmit` handler is embedded as a pure function from its
inputs (the current socket-connection status, the submitted form values and
the `AdminApi.login` response) to the ordered list of observable side effects
it performs (console logs, the network request, persistence writes, the
`adminLoginSuccess` event dispatch, socket disconnect / scheduled connect,
toasts, and the `onLoginSuccess` callback).  JavaScript truthiness of the
strings involved (`response.data?.token`, `response.error`, `!!values.password`)
is modelled explicitly: a string is truthy iff it is nonempty, and an absent
field is falsy.
-/

namespace AdminLogin

/-- The form values, from `adminLoginSchema` / `AdminLoginValues`. -/
structure AdminLoginValues where
  email : String
  password : String
deriving DecidableEq, Repr

/-- A principal record as consumed by the component: only `role` is inspected
by the code; `id` keeps distinct principals distinguishable. -/
structure Principal where
  id : Nat
  role : String
deriving DecidableEq, Repr

/-- The `data` field of the `AdminApi.login` response:
`{token?, user?, admin?}`. -/
structure LoginData where
  token : Option String
  user : Option Principal
  admin : Option Principal
deriving DecidableEq, Repr

/-- The `AdminApi.login` response shape: `{success, data?, error?}`. -/
structure LoginResponse where
  success : Bool
  data : Option LoginData
  error : Option String
deriving DecidableEq, Repr

/-- Observable side effects of one `onSubmit` run, in program order. -/
inductive Event where
  /-- line 51: `console.log('Attempting admin login with:', {email, hasPassword})` -/
  | logAttempt (email : String) (hasPassword : Bool)
  /-- line 53: the `AdminApi.login({email, password})` request -/
  | loginCall (email : String) (password : String)
  /-- line 58: `console.log('Admin login response:', ...)` (response-derived data only) -/
  | logResponse (r : LoginResponse)
  /-- line 67: `console.log('Complete admin login response:', ...)` -/
  | logFullResponse (r : LoginResponse)
  /-- line 80: `console.log('Selected admin user:', ...)` -/
  | logSelected (u : Option Principal)
  /-- lines 87 / 92 / 132: a `console.error` with the given message -/
  | logError (msg : String)
  /-- line 102: `setAdminToken(response.data.token)` -/
  | persistToken (token : String)
  /-- line 103: `localStorage.setItem('admin_user', JSON.stringify(adminUser))` -/
  | persistUser (u : Principal)
  /-- line 106: `window.dispatchEvent(new CustomEvent('adminLoginSuccess', {detail: {user, token}}))` -/
  | publishLoginSuccess (u : Principal) (token : String)
  /-- line 116: `socketService.disconnect()` -/
  | socketDisconnect
  /-- line 118: `setTimeout(() => socketService.connect(), 100)` -/
  | setConnectTimer (delayMs : Nat)
  /-- line 119: the deferred `socketService.connect()` firing -/
  | socketConnect
  /-- line 122: the success toast -/
  | toastSuccess (title description : String)
  /-- line 133: the destructive failure toast -/
  | toastError (title description : String)
  /-- line 127: the caller-supplied `onLoginSuccess()` callback -/
  | successCallback
deriving DecidableEq, Repr

/-- JavaScript `a || b` on an optional string: an absent or empty string is
falsy, so it falls through to the default. -/
def jsOr (o : Option String) (dflt : String) : String :=
  match o with
  | some s => if s = "" then dflt else s
  | none => dflt

/-- JavaScript truthiness of `d.token` (line 66's `response.data?.token`):
present and nonempty. -/
def tokenTruthy (d : LoginData) : Bool :=
  match d.token with
  | some t => t != ""
  | none => false

/-- Truthiness of the whole guard operand `response.data?.token`. -/
def tokenOf (r : LoginResponse) : Option String :=
  match r.data with
  | none => none
  | some d => match d.token with
    | none => none
    | some t => if t = "" then none else some t

/-- Line 78: `response.data.admin || response.data.user` — JS `||` on objects
prefers `admin` whenever it is present. -/
def selectPrincipal (d : LoginData) : Option Principal :=
  match d.admin with
  | some a => some a
  | none => d.user

/-- The generic denial message of line 129. -/
def genericDenialMsg : String := "Invalid admin credentials or insufficient permissions"

/-- The body of the `try` block after the three initial logs (lines 66-130):
the events it emits and the message of the `Error` it throws, if any.
`connected` is `socketService.isSocketConnected()` at line 115. -/
def tryTail (connected : Bool) (r : LoginResponse) : List Event × Option String :=
  match r.data with
  | none =>
      -- `response.data?.token` is undefined, so the line 66 guard is false:
      -- line 129 `throw new Error(response.error || '...')`
      ([], some (jsOr r.error genericDenialMsg))
  | some d =>
      if r.success && tokenTruthy d then
        let adminUser := selectPrincipal d
        let logs := [Event.logFullResponse r, Event.logSelected adminUser]
        match adminUser with
        | none =>
            -- line 87-88: console.error then `throw new Error('Invalid response: missing user data')`
            (logs ++ [Event.logError "No user data in response"],
             some "Invalid response: missing user data")
        | some u =>
            if u.role == "admin" then
              -- lines 100-127: persist, publish, reconnect, toast, callback
              (logs ++
               [Event.persistToken (d.token.getD ""),
                Event.persistUser u,
                Event.publishLoginSuccess u (d.token.getD "")] ++
               (if connected then [Event.socketDisconnect] else []) ++
               [Event.setConnectTimer 100,
                Event.toastSuccess "Admin Access Granted" "Welcome to the admin panel.",
                Event.successCallback],
               none)
            else
              -- lines 91-97: console.error then `throw new Error('Access denied. ...')`
              (logs ++ [Event.logError "Access denied - invalid admin role"],
               some "Access denied. Admin privileges required.")
      else
        -- line 129
        ([], some (jsOr r.error genericDenialMsg))

/-- The full observable trace of one `onSubmit` call (lines 47-141).
The three initial logs and the request come first; then the `try` tail; a
thrown error is caught at line 131 (console.error + destructive toast); and
when a connect timer was scheduled, its callback fires only after the whole
synchronous continuation (toast, `onLoginSuccess`, `finally`) has run, hence
the trailing `socketConnect`. -/
def onSubmitTrace (connected : Bool) (v : AdminLoginValues) (r : LoginResponse) : List Event :=
  let tail := tryTail connected r
  [Event.logAttempt v.email (v.password != ""),
   Event.loginCall v.email v.password,
   Event.logResponse r] ++
  tail.1 ++
  (match tail.2 with
   | some m => [Event.logError m, Event.toastError "Login failed" m]
   | none => []) ++
  (match tail.2 with
   | none => [Event.socketConnect]
   | some _ => [])

/-- Modelled from the spec: `zod`'s `.email()` check lives in the external
`zod` library, not in this repository; the spec only requires "a well-formed
e-mail-address shape".  One nonempty local part, one `@`, a nonempty domain
containing a dot and not starting or ending with one. -/
def isWellFormedEmail (s : String) : Bool :=
  match s.split (fun c => c = '@') with
  | [lhs, dom] =>
      lhs != "" && dom != "" && dom.contains '.' &&
      !(dom.startsWith ".") && !(dom.endsWith ".")
  | _ => false

/-- The `adminLoginSchema` predicate (lines 23-26): valid e-mail and a secret
of length at least 6. -/
def validateAdminLogin (v : AdminLoginValues) : Bool :=
  isWellFormedEmail v.email && decide (6 ≤ v.password.length)

/-- Modelled from the spec: `form.handleSubmit(onSubmit)` (line 158) with the
`zodResolver` (line 40) runs `onSubmit` only when the schema validation
passes; the gating itself lives in the external `react-hook-form` library.
A failed validation performs no observable side effect of the orchestration. -/
def handleSubmit (connected : Bool) (v : AdminLoginValues) (r : LoginResponse) : List Event :=
  if validateAdminLogin v then onSubmitTrace connected v r else []

/-- The component state visible to the submit button: line 36's `isLoading`. -/
structure ComponentState where
  isLoading : Bool
deriving DecidableEq, Repr

/-- A submit attempt against the rendered component.  The submit button is
`disabled={isLoading}` (line 210), so while a run is in flight (line 48 set
`isLoading` to `true`; the `finally` at line 139 resets it) the form cannot
be submitted again and nothing happens; otherwise the attempt runs to
completion, after which `isLoading` is `false` again. -/
def submitAttempt (st : ComponentState) (connected : Bool) (v : AdminLoginValues)
    (r : LoginResponse) : ComponentState × List Event :=
  if st.isLoading then (st, [])
  else (⟨false⟩, handleSubmit connected v r)

/-- Number of occurrences of an event in a trace. -/
def countEvent (l : List Event) (e : Event) : Nat :=
  (l.filter (fun x => decide (x = e))).length

/-- The strings an event's payload carries, used to state what each
observable output exposes. -/
def eventStrings : Event → List String
  | .logAttempt e _ => [e]
  | .loginCall e p => [e, p]
  | .logResponse r => r.error.toList ++
      (match r.data with
       | none => []
       | some d => d.token.toList ++ (d.user.map (·.role)).toList ++ (d.admin.map (·.role)).toList)
  | .logFullResponse r => r.error.toList ++
      (match r.data with
       | none => []
       | some d => d.token.toList ++ (d.user.map (·.role)).toList ++ (d.admin.map (·.role)).toList)
  | .logSelected u => (u.map (·.role)).toList
  | .logError m => [m]
  | .persistToken t => [t]
  | .persistUser u => [u.role]
  | .publishLoginSuccess u t => [u.role, t]
  | .socketDisconnect => []
  | .setConnectTimer _ => []
  | .socketConnect => []
  | .toastSuccess t d => [t, d]
  | .toastError t d => [t, d]
  | .successCallback => []

/-- All strings occurring anywhere in a response (the server-provided data). -/
def responseStrings (r : LoginResponse) : List String :=
  r.error.toList ++
  (match r.data with
   | none => []
   | some d => d.token.toList ++ (d.user.map (·.role)).toList ++ (d.admin.map (·.role)).toList)

/-- The fixed message strings the component itself emits. -/
def orchestratorMessages : List String :=
  ["No user data in response",
   "Invalid response: missing user data",
   "Access denied - invalid admin role",
   "Access denied. Admin privileges required.",
   "Invalid admin credentials or insufficient permissions",
   "Login failed",
   "Admin Access Granted",
   "Welcome to the admin panel."]

end AdminLogin

namespace AdminLogin

lemma tryTail_happy (connected : Bool) (r : LoginResponse) (d : LoginData)
    (u : Principal) (t : String)
    (hd : r.data = some d) (hs : r.success = true)
    (ht : d.token = some t) (hne : t ≠ "")
    (hsel : selectPrincipal d = some u) (hrole : u.role = "admin") :
    tryTail connected r =
      ([Event.logFullResponse r, Event.logSelected (some u),
        Event.persistToken t, Event.persistUser u, Event.publishLoginSuccess u t] ++
       (if connected then [Event.socketDisconnect] else []) ++
       [Event.setConnectTimer 100,
        Event.toastSuccess "Admin Access Granted" "Welcome to the admin panel.",
        Event.successCallback],
       none) := by
  simp [tryTail, hd, hs, tokenTruthy, ht, hne, hsel, hrole]

lemma onSubmitTrace_happy (connected : Bool) (v : AdminLoginValues) (r : LoginResponse)
    (d : LoginData) (u : Principal) (t : String)
    (hd : r.data = some d) (hs : r.success = true)
    (ht : d.token = some t) (hne : t ≠ "")
    (hsel : selectPrincipal d = some u) (hrole : u.role = "admin") :
    onSubmitTrace connected v r =
      [Event.logAttempt v.email (v.password != ""),
       Event.loginCall v.email v.password,
       Event.logResponse r,
       Event.logFullResponse r, Event.logSelected (some u),
       Event.persistToken t, Event.persistUser u, Event.publishLoginSuccess u t] ++
      (if connected then [Event.socketDisconnect] else []) ++
      [Event.setConnectTimer 100,
       Event.toastSuccess "Admin Access Granted" "Welcome to the admin panel.",
       Event.successCallback,
       Event.socketConnect] := by
  simp [onSubmitTrace, tryTail_happy connected r d u t hd hs ht hne hsel hrole]

lemma tryTail_denied_role (connected : Bool) (r : LoginResponse) (d : LoginData)
    (u : Principal) (hd : r.data = some d) (hs : r.success = true)
    (htt : tokenTruthy d = true)
    (hsel : selectPrincipal d = some u) (hrole : u.role ≠ "admin") :
    tryTail connected r =
      ([Event.logFullResponse r, Event.logSelected (some u),
        Event.logError "Access denied - invalid admin role"],
       some "Access denied. Admin privileges required.") := by
  simp [tryTail, hd, hs, htt, hsel, hrole]

lemma onSubmitTrace_denied_role (connected : Bool) (v : AdminLoginValues)
    (r : LoginResponse) (d : LoginData) (u : Principal)
    (hd : r.data = some d) (hs : r.success = true) (htt : tokenTruthy d = true)
    (hsel : selectPrincipal d = some u) (hrole : u.role ≠ "admin") :
    onSubmitTrace connected v r =
      [Event.logAttempt v.email (v.password != ""),
       Event.loginCall v.email v.password,
       Event.logResponse r,
       Event.logFullResponse r, Event.logSelected (some u),
       Event.logError "Access denied - invalid admin role",
       Event.logError "Access denied. Admin privileges required.",
       Event.toastError "Login failed" "Access denied. Admin privileges required."] := by
  simp [onSubmitTrace, tryTail_denied_role connected r d u hd hs htt hsel hrole]

lemma tryTail_missing_user (connected : Bool) (r : LoginResponse) (d : LoginData)
    (hd : r.data = some d) (hs : r.success = true) (htt : tokenTruthy d = true)
    (hsel : selectPrincipal d = none) :
    tryTail connected r =
      ([Event.logFullResponse r, Event.logSelected none,
        Event.logError "No user data in response"],
       some "Invalid response: missing user data") := by
  simp [tryTail, hd, hs, htt, hsel]

lemma onSubmitTrace_missing_user (connected : Bool) (v : AdminLoginValues)
    (r : LoginResponse) (d : LoginData)
    (hd : r.data = some d) (hs : r.success = true) (htt : tokenTruthy d = true)
    (hsel : selectPrincipal d = none) :
    onSubmitTrace connected v r =
      [Event.logAttempt v.email (v.password != ""),
       Event.loginCall v.email v.password,
       Event.logResponse r,
       Event.logFullResponse r, Event.logSelected none,
       Event.logError "No user data in response",
       Event.logError "Invalid response: missing user data",
       Event.toastError "Login failed" "Invalid response: missing user data"] := by
  simp [onSubmitTrace, tryTail_missing_user connected r d hd hs htt hsel]

lemma tryTail_guard_false (connected : Bool) (r : LoginResponse)
    (h : r.success = false ∨ tokenOf r = none) :
    tryTail connected r = ([], some (jsOr r.error genericDenialMsg)) := by
  rcases hd : r.data with _ | d
  · simp [tryTail, hd]
  · rcases h with hs | htk
    · simp [tryTail, hd, hs]
    · have htt : tokenTruthy d = false := by
        simp only [tokenOf, hd] at htk
        rcases ht : d.token with _ | t
        · simp [tokenTruthy, ht]
        · simp only [ht] at htk
          by_cases he : t = ""
          · simp [tokenTruthy, ht, he]
          · simp [he] at htk
      simp [tryTail, hd, htt]

lemma onSubmitTrace_guard_false (connected : Bool) (v : AdminLoginValues)
    (r : LoginResponse) (h : r.success = false ∨ tokenOf r = none) :
    onSubmitTrace connected v r =
      [Event.logAttempt v.email (v.password != ""),
       Event.loginCall v.email v.password,
       Event.logResponse r,
       Event.logError (jsOr r.error genericDenialMsg),
       Event.toastError "Login failed" (jsOr r.error genericDenialMsg)] := by
  simp [onSubmitTrace, tryTail_guard_false connected r h]

end AdminLogin

namespace AdminLogin

lemma tokenOf_eq_some (r : LoginResponse) (t : String) (h : tokenOf r = some t) :
    ∃ d, r.data = some d ∧ d.token = some t ∧ t ≠ "" := by
  rcases hd : r.data with _ | d
  · simp [tokenOf, hd] at h
  · rcases ht : d.token with _ | t'
    · simp [tokenOf, hd, ht] at h
    · by_cases he : t' = ""
      · simp [tokenOf, hd, ht, he] at h
      · simp [tokenOf, hd, ht, he] at h
        exact ⟨d, rfl, by rw [ht, h], h ▸ he⟩

lemma token_in_responseStrings (r : LoginResponse) (d : LoginData) (t : String)
    (hd : r.data = some d) (ht : d.token = some t) : t ∈ responseStrings r := by
  simp [responseStrings, hd, ht]

lemma selected_role_in_responseStrings (r : LoginResponse) (d : LoginData) (u : Principal)
    (hd : r.data = some d) (hsel : selectPrincipal d = some u) :
    u.role ∈ responseStrings r := by
  rcases ha : d.admin with _ | a
  · simp [selectPrincipal, ha] at hsel
    simp [responseStrings, hd, hsel]
  · simp [selectPrincipal, ha] at hsel
    simp [responseStrings, hd, ha, hsel]

/-- Sample form values used as concrete witnesses (spec §8 scenario B). -/
def vSample : AdminLoginValues := ⟨"admin@x.com", "secret1"⟩

/-- A principal with the admin role. -/
def adminPrincipal : Principal := ⟨1, "admin"⟩

/-- A principal with a non-admin role. -/
def standardPrincipal : Principal := ⟨2, "standard"⟩

/-- A successful response carrying an admin principal (scenario B). -/
def rAdmin : LoginResponse := ⟨true, some ⟨some "T1", none, some adminPrincipal⟩, none⟩

/-- A successful response whose only principal is non-admin (scenario C). -/
def rStandard : LoginResponse := ⟨true, some ⟨some "T1", some standardPrincipal, none⟩, none⟩

/-- A successful tokened response with neither `user` nor `admin` (scenario E). -/
def rMalformed : LoginResponse := ⟨true, some ⟨some "T1", none, none⟩, none⟩

/-- C1: on a successful exchange admitting an admin principal, the trace
persists the token and principal, then publishes `adminLoginSuccess`, then
initiates the reconnection (disconnect when connected, then the 100 ms connect
timer), and only after all of these fires the success callback; the deferred
connect lands after the callback, and persistence, publish and callback each
occur exactly once. -/
theorem admin_success_effect_order (connected : Bool) (v : AdminLoginValues)
    (r : LoginResponse) (d : LoginData) (u : Principal) (t : String)
    (hd : r.data = some d) (hs : r.success = true)
    (ht : d.token = some t) (hne : t ≠ "")
    (hsel : selectPrincipal d = some u) (hrole : u.role = "admin") :
    (∃ l₁, onSubmitTrace connected v r =
        l₁ ++ [Event.persistToken t, Event.persistUser u, Event.publishLoginSuccess u t] ++
        (if connected then [Event.socketDisconnect] else []) ++
        [Event.setConnectTimer 100,
         Event.toastSuccess "Admin Access Granted" "Welcome to the admin panel.",
         Event.successCallback,
         Event.socketConnect]) ∧
    countEvent (onSubmitTrace connected v r) (Event.persistToken t) = 1 ∧
    countEvent (onSubmitTrace connected v r) (Event.persistUser u) = 1 ∧
    countEvent (onSubmitTrace connected v r) (Event.publishLoginSuccess u t) = 1 ∧
    countEvent (onSubmitTrace connected v r) Event.successCallback = 1 := by
  rw [onSubmitTrace_happy connected v r d u t hd hs ht hne hsel hrole]
  refine ⟨⟨[Event.logAttempt v.email (v.password != ""),
            Event.loginCall v.email v.password,
            Event.logResponse r,
            Event.logFullResponse r, Event.logSelected (some u)], by simp⟩, ?_, ?_, ?_, ?_⟩ <;>
    cases connected <;> simp [countEvent]

/-- Concrete instance of the C1 theorem at scenario B. -/
theorem admin_success_effect_order_witness :
    rAdmin.data = some ⟨some "T1", none, some adminPrincipal⟩ ∧
    ((∃ l₁, onSubmitTrace true vSample rAdmin =
        l₁ ++ [Event.persistToken "T1", Event.persistUser adminPrincipal,
               Event.publishLoginSuccess adminPrincipal "T1"] ++
        (if true then [Event.socketDisconnect] else []) ++
        [Event.setConnectTimer 100,
         Event.toastSuccess "Admin Access Granted" "Welcome to the admin panel.",
         Event.successCallback,
         Event.socketConnect]) ∧
     countEvent (onSubmitTrace true vSample rAdmin) (Event.persistToken "T1") = 1 ∧
     countEvent (onSubmitTrace true vSample rAdmin) (Event.persistUser adminPrincipal) = 1 ∧
     countEvent (onSubmitTrace true vSample rAdmin)
       (Event.publishLoginSuccess adminPrincipal "T1") = 1 ∧
     countEvent (onSubmitTrace true vSample rAdmin) Event.successCallback = 1) :=
  ⟨rfl, admin_success_effect_order true vSample rAdmin ⟨some "T1", none, some adminPrincipal⟩
    adminPrincipal "T1" rfl rfl rfl (by decide) rfl rfl⟩

end AdminLogin

namespace AdminLogin

/-- C2: a successful exchange whose selected principal is not an admin never
persists the token or principal, never publishes the session event, never
fires the success callback, and the run ends with the destructive
access-denied toast. -/
theorem nonadmin_no_persist_no_callback (connected : Bool) (v : AdminLoginValues)
    (r : LoginResponse) (d : LoginData) (u : Principal)
    (hd : r.data = some d) (hs : r.success = true) (htt : tokenTruthy d = true)
    (hsel : selectPrincipal d = some u) (hrole : u.role ≠ "admin") :
    (∀ t, Event.persistToken t ∉ onSubmitTrace connected v r) ∧
    (∀ p, Event.persistUser p ∉ onSubmitTrace connected v r) ∧
    (∀ p t, Event.publishLoginSuccess p t ∉ onSubmitTrace connected v r) ∧
    Event.successCallback ∉ onSubmitTrace connected v r ∧
    (onSubmitTrace connected v r).getLast? =
      some (Event.toastError "Login failed" "Access denied. Admin privileges required.") := by
  rw [onSubmitTrace_denied_role connected v r d u hd hs htt hsel hrole]
  refine ⟨?_, ?_, ?_, ?_, ?_⟩ <;> simp

/-- Concrete instance of the C2 theorem at scenario C. -/
theorem nonadmin_no_persist_no_callback_witness :
    standardPrincipal.role ≠ "admin" ∧
    ((∀ t, Event.persistToken t ∉ onSubmitTrace true vSample rStandard) ∧
     (∀ p, Event.persistUser p ∉ onSubmitTrace true vSample rStandard) ∧
     (∀ p t, Event.publishLoginSuccess p t ∉ onSubmitTrace true vSample rStandard) ∧
     Event.successCallback ∉ onSubmitTrace true vSample rStandard ∧
     (onSubmitTrace true vSample rStandard).getLast? =
       some (Event.toastError "Login failed" "Access denied. Admin privileges required.")) :=
  ⟨by decide,
   nonadmin_no_persist_no_callback true vSample rStandard
     ⟨some "T1", some standardPrincipal, none⟩ standardPrincipal
     rfl rfl (by decide) rfl (by decide)⟩

/-- C3 counterexample: on a `success:true` tokened response with neither an
`admin` nor a `user` field, the code reports the failure with the message
"Invalid response: missing user data" (line 88), and no observable output of
the run carries the string "malformed response" the claim requires. -/
theorem malformed_message_counterexample :
    Event.toastError "Login failed" "Invalid response: missing user data"
      ∈ onSubmitTrace true vSample rMalformed ∧
    (onSubmitTrace true vSample rMalformed).all
      (fun e => !((eventStrings e).contains "malformed response")) = true := by decide

/-- C3 (amended): on a `success:true` tokened response with neither an `admin`
nor a `user` field, the run performs no persistence, never fires the success
callback, and reports the failure with the message
"Invalid response: missing user data". -/
theorem missing_principal_reported (connected : Bool) (v : AdminLoginValues)
    (r : LoginResponse) (d : LoginData)
    (hd : r.data = some d) (hs : r.success = true) (htt : tokenTruthy d = true)
    (hadmin : d.admin = none) (huser : d.user = none) :
    (∀ t, Event.persistToken t ∉ onSubmitTrace connected v r) ∧
    (∀ p, Event.persistUser p ∉ onSubmitTrace connected v r) ∧
    (∀ p t, Event.publishLoginSuccess p t ∉ onSubmitTrace connected v r) ∧
    Event.successCallback ∉ onSubmitTrace connected v r ∧
    Event.toastError "Login failed" "Invalid response: missing user data"
      ∈ onSubmitTrace connected v r := by
  have hsel : selectPrincipal d = none := by simp [selectPrincipal, hadmin, huser]
  rw [onSubmitTrace_missing_user connected v r d hd hs htt hsel]
  refine ⟨?_, ?_, ?_, ?_, ?_⟩ <;> simp

/-- Concrete instance of the amended C3 theorem at scenario E. -/
theorem missing_principal_reported_witness :
    rMalformed.success = true ∧
    ((∀ t, Event.persistToken t ∉ onSubmitTrace true vSample rMalformed) ∧
     (∀ p, Event.persistUser p ∉ onSubmitTrace true vSample rMalformed) ∧
     (∀ p t, Event.publishLoginSuccess p t ∉ onSubmitTrace true vSample rMalformed) ∧
     Event.successCallback ∉ onSubmitTrace true vSample rMalformed ∧
     Event.toastError "Login failed" "Invalid response: missing user data"
       ∈ onSubmitTrace true vSample rMalformed) :=
  ⟨rfl,
   missing_principal_reported true vSample rMalformed ⟨some "T1", none, none⟩
     rfl rfl (by decide) rfl rfl⟩

end AdminLogin

namespace AdminLogin

/-- C4: an input with a malformed identifier or a secret shorter than 6
characters fails the schema validation, and the gated submit performs no
observable effect at all — in particular no `AdminApi.login` request. -/
theorem invalid_input_no_network (connected : Bool) (v : AdminLoginValues)
    (r : LoginResponse)
    (h : isWellFormedEmail v.email = false ∨ v.password.length < 6) :
    validateAdminLogin v = false ∧
    handleSubmit connected v r = [] ∧
    (∀ e p, Event.loginCall e p ∉ handleSubmit connected v r) := by
  have hv : validateAdminLogin v = false := by
    rcases h with h | h
    · simp [validateAdminLogin, h]
    · simp [validateAdminLogin, Nat.not_le.mpr h]
  refine ⟨hv, by simp [handleSubmit, hv], ?_⟩
  intro e p
  simp [handleSubmit, hv]

/-- Concrete instance of the C4 theorem at scenario A ("a@b.com" / "short"). -/
theorem invalid_input_no_network_witness :
    (AdminLoginValues.mk "a@b.com" "short").password.length < 6 ∧
    (validateAdminLogin ⟨"a@b.com", "short"⟩ = false ∧
     handleSubmit false ⟨"a@b.com", "short"⟩ rAdmin = [] ∧
     (∀ e p, Event.loginCall e p ∉ handleSubmit false ⟨"a@b.com", "short"⟩ rAdmin)) :=
  ⟨by decide, invalid_input_no_network false ⟨"a@b.com", "short"⟩ rAdmin (Or.inr (by decide))⟩

/-- C5: the principal driving the role gate, persistence and the published
event is `response.data.admin || response.data.user`: the `admin` field is
preferred whenever present, the `user` field is the fallback, and on an
admitted run that selected principal is the one logged as selected, persisted
and published together with the token. -/
theorem principal_selection_prefers_admin (d : LoginData) :
    (∀ a, d.admin = some a → selectPrincipal d = some a) ∧
    (d.admin = none → selectPrincipal d = d.user) ∧
    (∀ connected v r u t, r.data = some d → r.success = true →
      d.token = some t → t ≠ "" → selectPrincipal d = some u → u.role = "admin" →
      Event.logSelected (some u) ∈ onSubmitTrace connected v r ∧
      Event.persistUser u ∈ onSubmitTrace connected v r ∧
      Event.publishLoginSuccess u t ∈ onSubmitTrace connected v r) := by
  refine ⟨?_, ?_, ?_⟩
  · intro a ha; simp [selectPrincipal, ha]
  · intro ha; simp [selectPrincipal, ha]
  · intro connected v r u t hd hs ht hne hsel hrole
    rw [onSubmitTrace_happy connected v r d u t hd hs ht hne hsel hrole]
    cases connected <;> simp

/-- A response carrying both a non-admin `user` and an admin `admin` field. -/
def rBoth : LoginResponse :=
  ⟨true, some ⟨some "T1", some standardPrincipal, some adminPrincipal⟩, none⟩

/-- Concrete instance of the C5 theorem: with both fields present the admin
principal, not the standard one, is selected, persisted and published. -/
theorem principal_selection_prefers_admin_witness :
    (⟨some "T1", some standardPrincipal, some adminPrincipal⟩ : LoginData).admin =
      some adminPrincipal ∧
    selectPrincipal ⟨some "T1", some standardPrincipal, some adminPrincipal⟩ =
      some adminPrincipal ∧
    (Event.logSelected (some adminPrincipal) ∈ onSubmitTrace true vSample rBoth ∧
     Event.persistUser adminPrincipal ∈ onSubmitTrace true vSample rBoth ∧
     Event.publishLoginSuccess adminPrincipal "T1" ∈ onSubmitTrace true vSample rBoth) :=
  ⟨rfl,
   (principal_selection_prefers_admin
      ⟨some "T1", some standardPrincipal, some adminPrincipal⟩).1 adminPrincipal rfl,
   (principal_selection_prefers_admin
      ⟨some "T1", some standardPrincipal, some adminPrincipal⟩).2.2 true vSample rBoth
     adminPrincipal "T1" rfl rfl rfl (by decide) rfl rfl⟩

/-- C6: while a run is in flight `isLoading` is `true` (set at line 48,
reset only by the `finally` at line 139), the submit button is disabled
(line 210), so a second submit attempt leaves the state unchanged and emits
no event — in particular no second `AdminApi.login` request ever starts while
one run is submitting. -/
theorem inflight_resubmit_rejected (connected : Bool) (v : AdminLoginValues)
    (r : LoginResponse) :
    submitAttempt ⟨true⟩ connected v r = (⟨true⟩, []) ∧
    (∀ e p, Event.loginCall e p ∉ (submitAttempt ⟨true⟩ connected v r).2) := by
  constructor
  · simp [submitAttempt]
  · intro e p; simp [submitAttempt]

/-- C7: on an admitted run, the socket is disconnected only when it was
connected, the new connection is opened only after the fixed 100 ms settling
timer is set, and whenever the disconnect happens it strictly precedes the
corresponding connect. -/
theorem reconnect_disconnect_precedes_connect (connected : Bool)
    (v : AdminLoginValues) (r : LoginResponse) (d : LoginData) (u : Principal)
    (t : String) (hd : r.data = some d) (hs : r.success = true)
    (ht : d.token = some t) (hne : t ≠ "")
    (hsel : selectPrincipal d = some u) (hrole : u.role = "admin") :
    (connected = false → Event.socketDisconnect ∉ onSubmitTrace connected v r) ∧
    (∃ l₁ l₂, onSubmitTrace connected v r = l₁ ++ Event.setConnectTimer 100 :: l₂ ∧
      Event.socketConnect ∈ l₂ ∧ Event.socketConnect ∉ l₁ ∧
      (connected = true → Event.socketDisconnect ∈ l₁)) := by
  rw [onSubmitTrace_happy connected v r d u t hd hs ht hne hsel hrole]
  cases connected
  · constructor
    · intro _
      simp
    · refine ⟨[Event.logAttempt v.email (v.password != ""),
               Event.loginCall v.email v.password,
               Event.logResponse r, Event.logFullResponse r, Event.logSelected (some u),
               Event.persistToken t, Event.persistUser u, Event.publishLoginSuccess u t],
              [Event.toastSuccess "Admin Access Granted" "Welcome to the admin panel.",
               Event.successCallback, Event.socketConnect], ?_, ?_, ?_, ?_⟩
      · simp
      · simp
      · simp
      · intro h
        cases h
  · constructor
    · intro h
      cases h
    · refine ⟨[Event.logAttempt v.email (v.password != ""),
               Event.loginCall v.email v.password,
               Event.logResponse r, Event.logFullResponse r, Event.logSelected (some u),
               Event.persistToken t, Event.persistUser u, Event.publishLoginSuccess u t,
               Event.socketDisconnect],
              [Event.toastSuccess "Admin Access Granted" "Welcome to the admin panel.",
               Event.successCallback, Event.socketConnect], ?_, ?_, ?_, ?_⟩
      · simp
      · simp
      · simp
      · intro _
        simp

/-- Concrete instance of the C7 theorem with an active connection. -/
theorem reconnect_disconnect_precedes_connect_witness :
    adminPrincipal.role = "admin" ∧
    ((true = false → Event.socketDisconnect ∉ onSubmitTrace true vSample rAdmin) ∧
     (∃ l₁ l₂, onSubmitTrace true vSample rAdmin = l₁ ++ Event.setConnectTimer 100 :: l₂ ∧
       Event.socketConnect ∈ l₂ ∧ Event.socketConnect ∉ l₁ ∧
       (true = true → Event.socketDisconnect ∈ l₁))) :=
  ⟨rfl,
   reconnect_disconnect_precedes_connect true vSample rAdmin
     ⟨some "T1", none, some adminPrincipal⟩ adminPrincipal "T1"
     rfl rfl rfl (by decide) rfl rfl⟩

end AdminLogin

namespace AdminLogin

/-- C9: when the service rejects with `success:false` and a nonempty error
message, that message is surfaced verbatim as the description of the
destructive toast, and nothing is persisted. -/
theorem rejection_message_verbatim (connected : Bool) (v : AdminLoginValues)
    (r : LoginResponse) (m : String)
    (hs : r.success = false) (he : r.error = some m) (hm : m ≠ "") :
    (∀ t, Event.persistToken t ∉ onSubmitTrace connected v r) ∧
    (∀ p, Event.persistUser p ∉ onSubmitTrace connected v r) ∧
    (∀ p t, Event.publishLoginSuccess p t ∉ onSubmitTrace connected v r) ∧
    Event.successCallback ∉ onSubmitTrace connected v r ∧
    Event.toastError "Login failed" m ∈ onSubmitTrace connected v r := by
  rw [onSubmitTrace_guard_false connected v r (Or.inl hs)]
  have hj : jsOr r.error genericDenialMsg = m := by simp [jsOr, he, hm]
  rw [hj]
  refine ⟨?_, ?_, ?_, ?_, ?_⟩ <;> simp

/-- A rejection response (spec §8 scenario D). -/
def rRejected : LoginResponse := ⟨false, none, some "invalid credentials"⟩

/-- Concrete instance of the C9 theorem at scenario D. -/
theorem rejection_message_verbatim_witness :
    rRejected.error = some "invalid credentials" ∧
    ((∀ t, Event.persistToken t ∉ onSubmitTrace false vSample rRejected) ∧
     (∀ p, Event.persistUser p ∉ onSubmitTrace false vSample rRejected) ∧
     (∀ p t, Event.publishLoginSuccess p t ∉ onSubmitTrace false vSample rRejected) ∧
     Event.successCallback ∉ onSubmitTrace false vSample rRejected ∧
     Event.toastError "Login failed" "invalid credentials"
       ∈ onSubmitTrace false vSample rRejected) :=
  ⟨rfl,
   rejection_message_verbatim false vSample rRejected "invalid credentials"
     rfl rfl (by decide)⟩

/-- A `success:true` response with no token and an empty error string. -/
def rEmptyError : LoginResponse := ⟨true, some ⟨none, none, none⟩, some ""⟩

/-- C10 counterexample: on a token-less `success:true` response whose `error`
field is present but empty, the code does not report the present error message
(the empty string) but falls back to the generic denial message, because
JavaScript `response.error || ...` treats the empty string as absent. -/
theorem tokenless_empty_error_counterexample :
    rEmptyError.success = true ∧
    rEmptyError.error = some "" ∧
    Event.toastError "Login failed" "" ∉ onSubmitTrace true vSample rEmptyError ∧
    Event.toastError "Login failed" "Invalid admin credentials or insufficient permissions"
      ∈ onSubmitTrace true vSample rEmptyError := by decide

/-- C10 (amended): on a `success:true` response whose token is missing or
empty, nothing is persisted and the run never fires the success callback; the
failure toast carries the response's error message when that message is
present and nonempty, and the generic denial message otherwise. -/
theorem tokenless_success_reported_as_rejection (connected : Bool)
    (v : AdminLoginValues) (r : LoginResponse)
    (_hs : r.success = true) (htk : tokenOf r = none) :
    (∀ t, Event.persistToken t ∉ onSubmitTrace connected v r) ∧
    (∀ p, Event.persistUser p ∉ onSubmitTrace connected v r) ∧
    (∀ p t, Event.publishLoginSuccess p t ∉ onSubmitTrace connected v r) ∧
    Event.successCallback ∉ onSubmitTrace connected v r ∧
    Event.toastError "Login failed" (jsOr r.error genericDenialMsg)
      ∈ onSubmitTrace connected v r ∧
    (∀ m, r.error = some m → m ≠ "" → jsOr r.error genericDenialMsg = m) ∧
    ((r.error = none ∨ r.error = some "") →
      jsOr r.error genericDenialMsg = genericDenialMsg) := by
  rw [onSubmitTrace_guard_false connected v r (Or.inr htk)]
  refine ⟨by simp, by simp, by simp, by simp, by simp, ?_, ?_⟩
  · intro m hm hne
    simp [jsOr, hm, hne]
  · intro hm
    rcases hm with hm | hm <;> simp [jsOr, hm]

/-- A token-less `success:true` response with a nonempty error message. -/
def rTokenless : LoginResponse := ⟨true, some ⟨none, none, none⟩, some "no token issued"⟩

/-- Concrete instance of the amended C10 theorem. -/
theorem tokenless_success_reported_as_rejection_witness :
    tokenOf rTokenless = none ∧
    ((∀ t, Event.persistToken t ∉ onSubmitTrace false vSample rTokenless) ∧
     (∀ p, Event.persistUser p ∉ onSubmitTrace false vSample rTokenless) ∧
     (∀ p t, Event.publishLoginSuccess p t ∉ onSubmitTrace false vSample rTokenless) ∧
     Event.successCallback ∉ onSubmitTrace false vSample rTokenless ∧
     Event.toastError "Login failed" (jsOr rTokenless.error genericDenialMsg)
       ∈ onSubmitTrace false vSample rTokenless ∧
     (∀ m, rTokenless.error = some m → m ≠ "" →
       jsOr rTokenless.error genericDenialMsg = m) ∧
     ((rTokenless.error = none ∨ rTokenless.error = some "") →
       jsOr rTokenless.error genericDenialMsg = genericDenialMsg)) :=
  ⟨rfl, tokenless_success_reported_as_rejection false vSample rTokenless rfl rfl⟩

end AdminLogin

namespace AdminLogin

lemma eventStrings_logResponse (r : LoginResponse) :
    eventStrings (Event.logResponse r) = responseStrings r := rfl

lemma eventStrings_logFullResponse (r : LoginResponse) :
    eventStrings (Event.logFullResponse r) = responseStrings r := rfl

lemma jsOr_error_classified (r : LoginResponse) :
    jsOr r.error genericDenialMsg ∈ responseStrings r ∨
    jsOr r.error genericDenialMsg ∈ orchestratorMessages := by
  rcases he : r.error with _ | s
  · right
    simp only [jsOr]
    decide
  · by_cases hs : s = ""
    · right
      simp only [jsOr, hs, if_pos]
      decide
    · left
      simp [jsOr, hs, responseStrings, he]

lemma guard_false_strings_classified (connected : Bool) (v : AdminLoginValues)
    (r : LoginResponse) (h : r.success = false ∨ tokenOf r = none) :
    ∀ ev ∈ onSubmitTrace connected v r,
      ev = Event.logAttempt v.email (v.password != "") ∨
      ev = Event.loginCall v.email v.password ∨
      (∀ s ∈ eventStrings ev, s ∈ responseStrings r ∨ s ∈ orchestratorMessages) := by
  rw [onSubmitTrace_guard_false connected v r h]
  intro ev hev
  simp only [List.mem_cons, List.not_mem_nil, or_false] at hev
  rcases hev with rfl | rfl | rfl | rfl | rfl
  · exact Or.inl rfl
  · exact Or.inr (Or.inl rfl)
  · refine Or.inr (Or.inr ?_)
    intro s hs'
    rw [eventStrings_logResponse] at hs'
    exact Or.inl hs'
  · refine Or.inr (Or.inr ?_)
    intro s hs'
    simp only [eventStrings, List.mem_singleton] at hs'
    subst hs'
    exact jsOr_error_classified r
  · refine Or.inr (Or.inr ?_)
    intro s hs'
    simp only [eventStrings, List.mem_cons, List.not_mem_nil, or_false] at hs'
    rcases hs' with rfl | rfl
    · exact Or.inr (by decide)
    · exact jsOr_error_classified r


/-- Every event a run emits is the initial credentials log, the `AdminApi`
request itself, or an event whose payload strings all come from the server
response or the component's fixed messages. -/
lemma trace_strings_classified (connected : Bool) (v : AdminLoginValues)
    (r : LoginResponse) :
    ∀ ev ∈ onSubmitTrace connected v r,
      ev = Event.logAttempt v.email (v.password != "") ∨
      ev = Event.loginCall v.email v.password ∨
      (∀ s ∈ eventStrings ev, s ∈ responseStrings r ∨ s ∈ orchestratorMessages) := by
  by_cases hs : r.success = true
  · rcases htk : tokenOf r with _ | t
    · exact guard_false_strings_classified connected v r (Or.inr htk)
    · obtain ⟨d, hd, ht, hne⟩ := tokenOf_eq_some r t htk
      have htt : tokenTruthy d = true := by simp [tokenTruthy, ht, hne]
      rcases hsel : selectPrincipal d with _ | u
      · rw [onSubmitTrace_missing_user connected v r d hd hs htt hsel]
        intro ev hev
        simp only [List.mem_cons, List.not_mem_nil, or_false] at hev
        rcases hev with rfl | rfl | rfl | rfl | rfl | rfl | rfl | rfl
        · exact Or.inl rfl
        · exact Or.inr (Or.inl rfl)
        · exact Or.inr (Or.inr fun s hs' => Or.inl (eventStrings_logResponse r ▸ hs'))
        · exact Or.inr (Or.inr fun s hs' => Or.inl (eventStrings_logFullResponse r ▸ hs'))
        · refine Or.inr (Or.inr ?_)
          intro s hs'
          simp [eventStrings] at hs'
        · refine Or.inr (Or.inr ?_)
          intro s hs'
          simp [eventStrings] at hs'
          subst hs'
          exact Or.inr (by decide)
        · refine Or.inr (Or.inr ?_)
          intro s hs'
          simp [eventStrings] at hs'
          subst hs'
          exact Or.inr (by decide)
        · refine Or.inr (Or.inr ?_)
          intro s hs'
          simp [eventStrings] at hs'
          rcases hs' with rfl | rfl
          · exact Or.inr (by decide)
          · exact Or.inr (by decide)
      · have hu : u.role ∈ responseStrings r :=
          selected_role_in_responseStrings r d u hd hsel
        have htok : t ∈ responseStrings r := token_in_responseStrings r d t hd ht
        by_cases hrole : u.role = "admin"
        · rw [onSubmitTrace_happy connected v r d u t hd hs ht hne hsel hrole]
          cases connected
          · intro ev hev
            simp at hev
            rcases hev with rfl | rfl | rfl | rfl | rfl | rfl | rfl | rfl | rfl | rfl | rfl | rfl
            · exact Or.inl rfl
            · exact Or.inr (Or.inl rfl)
            · exact Or.inr (Or.inr fun s hs' => Or.inl (eventStrings_logResponse r ▸ hs'))
            · exact Or.inr (Or.inr fun s hs' => Or.inl (eventStrings_logFullResponse r ▸ hs'))
            · refine Or.inr (Or.inr ?_)
              intro s hs'
              simp [eventStrings] at hs'
              subst hs'
              exact Or.inl hu
            · refine Or.inr (Or.inr ?_)
              intro s hs'
              simp [eventStrings] at hs'
              subst hs'
              exact Or.inl htok
            · refine Or.inr (Or.inr ?_)
              intro s hs'
              simp [eventStrings] at hs'
              subst hs'
              exact Or.inl hu
            · refine Or.inr (Or.inr ?_)
              intro s hs'
              simp [eventStrings] at hs'
              rcases hs' with rfl | rfl
              · exact Or.inl hu
              · exact Or.inl htok
            · refine Or.inr (Or.inr ?_)
              intro s hs'
              simp [eventStrings] at hs'
            · refine Or.inr (Or.inr ?_)
              intro s hs'
              simp [eventStrings] at hs'
              rcases hs' with rfl | rfl
              · exact Or.inr (by decide)
              · exact Or.inr (by decide)
            · refine Or.inr (Or.inr ?_)
              intro s hs'
              simp [eventStrings] at hs'
            · refine Or.inr (Or.inr ?_)
              intro s hs'
              simp [eventStrings] at hs'
          · intro ev hev
            simp at hev
            rcases hev with rfl | rfl | rfl | rfl | rfl | rfl | rfl | rfl | rfl | rfl | rfl
              | rfl | rfl
            · exact Or.inl rfl
            · exact Or.inr (Or.inl rfl)
            · exact Or.inr (Or.inr fun s hs' => Or.inl (eventStrings_logResponse r ▸ hs'))
            · exact Or.inr (Or.inr fun s hs' => Or.inl (eventStrings_logFullResponse r ▸ hs'))
            · refine Or.inr (Or.inr ?_)
              intro s hs'
              simp [eventStrings] at hs'
              subst hs'
              exact Or.inl hu
            · refine Or.inr (Or.inr ?_)
              intro s hs'
              simp [eventStrings] at hs'
              subst hs'
              exact Or.inl htok
            · refine Or.inr (Or.inr ?_)
              intro s hs'
              simp [eventStrings] at hs'
              subst hs'
              exact Or.inl hu
            · refine Or.inr (Or.inr ?_)
              intro s hs'
              simp [eventStrings] at hs'
              rcases hs' with rfl | rfl
              · exact Or.inl hu
              · exact Or.inl htok
            · refine Or.inr (Or.inr ?_)
              intro s hs'
              simp [eventStrings] at hs'
            · refine Or.inr (Or.inr ?_)
              intro s hs'
              simp [eventStrings] at hs'
            · refine Or.inr (Or.inr ?_)
              intro s hs'
              simp [eventStrings] at hs'
              rcases hs' with rfl | rfl
              · exact Or.inr (by decide)
              · exact Or.inr (by decide)
            · refine Or.inr (Or.inr ?_)
              intro s hs'
              simp [eventStrings] at hs'
            · refine Or.inr (Or.inr ?_)
              intro s hs'
              simp [eventStrings] at hs'
        · rw [onSubmitTrace_denied_role connected v r d u hd hs htt hsel hrole]
          intro ev hev
          simp only [List.mem_cons, List.not_mem_nil, or_false] at hev
          rcases hev with rfl | rfl | rfl | rfl | rfl | rfl | rfl | rfl
          · exact Or.inl rfl
          · exact Or.inr (Or.inl rfl)
          · exact Or.inr (Or.inr fun s hs' => Or.inl (eventStrings_logResponse r ▸ hs'))
          · exact Or.inr (Or.inr fun s hs' => Or.inl (eventStrings_logFullResponse r ▸ hs'))
          · refine Or.inr (Or.inr ?_)
            intro s hs'
            simp [eventStrings] at hs'
            subst hs'
            exact Or.inl hu
          · refine Or.inr (Or.inr ?_)
            intro s hs'
            simp [eventStrings] at hs'
            subst hs'
            exact Or.inr (by decide)
          · refine Or.inr (Or.inr ?_)
            intro s hs'
            simp [eventStrings] at hs'
            subst hs'
            exact Or.inr (by decide)
          · refine Or.inr (Or.inr ?_)
            intro s hs'
            simp [eventStrings] at hs'
            rcases hs' with rfl | rfl
            · exact Or.inr (by decide)
            · exact Or.inr (by decide)
  · have hsf : r.success = false := Bool.eq_false_iff.mpr hs
    exact guard_false_strings_classified connected v r (Or.inl hsf)

end AdminLogin

namespace AdminLogin

/-- C8 counterexample: at scenario B's concrete submission, the run emits the
line 51 console log, an observable output other than the `AdminApi` request
that carries the entered identifier — so the credentials are not kept out of
every output besides the request. -/
theorem identifier_logged_counterexample :
    vSample.email = "admin@x.com" ∧
    Event.logAttempt "admin@x.com" true ∈ onSubmitTrace true vSample rAdmin ∧
    "admin@x.com" ∈ eventStrings (Event.logAttempt "admin@x.com" true) ∧
    Event.logAttempt "admin@x.com" true ≠ Event.loginCall "admin@x.com" "secret1" := by
  decide

/-- C8 (amended): provided the server response does not echo the credentials
and the secret collides with neither the identifier nor a fixed component
message, the secret appears in no observable output of the run other than the
`AdminApi.login` request — in particular it is never logged and never
persisted; the identifier appears only in the line 51 diagnostic console log
and in that request. -/
theorem credentials_confined_to_request (connected : Bool) (v : AdminLoginValues)
    (r : LoginResponse)
    (hpr : v.password ∉ responseStrings r)
    (hpm : v.password ∉ orchestratorMessages)
    (hpe : v.password ≠ v.email)
    (her : v.email ∉ responseStrings r)
    (hem : v.email ∉ orchestratorMessages) :
    (∀ ev ∈ onSubmitTrace connected v r,
      v.password ∈ eventStrings ev → ev = Event.loginCall v.email v.password) ∧
    (∀ ev ∈ onSubmitTrace connected v r,
      v.email ∈ eventStrings ev →
        ev = Event.logAttempt v.email (v.password != "") ∨
        ev = Event.loginCall v.email v.password) := by
  constructor
  · intro ev hev hp
    rcases trace_strings_classified connected v r ev hev with rfl | rfl | hb
    · simp [eventStrings] at hp
      exact absurd hp hpe
    · rfl
    · rcases hb v.password hp with h | h
      · exact absurd h hpr
      · exact absurd h hpm
  · intro ev hev hp
    rcases trace_strings_classified connected v r ev hev with rfl | rfl | hb
    · exact Or.inl rfl
    · exact Or.inr rfl
    · rcases hb v.email hp with h | h
      · exact absurd h her
      · exact absurd h hem

/-- Concrete instance of the amended C8 theorem at scenario B. -/
theorem credentials_confined_to_request_witness :
    ("secret1" ∉ responseStrings rAdmin ∧ "secret1" ∉ orchestratorMessages ∧
     ("secret1" : String) ≠ "admin@x.com" ∧ "admin@x.com" ∉ responseStrings rAdmin ∧
     "admin@x.com" ∉ orchestratorMessages) ∧
    ((∀ ev ∈ onSubmitTrace true vSample rAdmin,
        "secret1" ∈ eventStrings ev → ev = Event.loginCall "admin@x.com" "secret1") ∧
     (∀ ev ∈ onSubmitTrace true vSample rAdmin,
        "admin@x.com" ∈ eventStrings ev →
          ev = Event.logAttempt "admin@x.com" (("secret1" : String) != "") ∨
          ev = Event.loginCall "admin@x.com" "secret1")) :=
  ⟨⟨by decide, by decide, by decide, by decide, by decide⟩,
   credentials_confined_to_request true vSample rAdmin
     (by decide) (by decide) (by decide) (by decide) (by decide)⟩

end AdminLogin
